import Mathlib

/-!
Shallow embedding of the Certificate Inspection Engine of
`src/CertInspector.py`, together with theorems settling the spec's claims.

The network itself (sockets, TLS, HTTP) lives outside the program text, so
each network interaction is a parameter of the embedded function:
the TLS server is a function from a domain to the outcome of the
connect/handshake/extraction step, the CT aggregator is the outcome of the
HTTP request, and the cipher handshake is an optional negotiated-cipher
triple.  Everything the Python code does with those outcomes is embedded
faithfully below.
-/

namespace CertInspector

/-! ### Python dictionaries built from (name, value) pairs

`dict(pairs)` in Python folds the pairs left to right, a later pair with
the same key overwriting an earlier one; two dicts compare equal exactly
when they contain the same key-to-value mapping, independent of insertion
order.  We model a dict by its pair list and give lookup the last-wins
semantics. -/

/-- Lookup in a Python dict built from `pairs`: the value of the last pair
whose key is `k`, if any. -/
def pyDictLookup (pairs : List (String × String)) (k : String) : Option String :=
  (pairs.reverse.find? (fun p => p.1 == k)).map (fun p => p.2)

/-- Python `==` on two dicts built from `d1` and `d2`: the mappings agree on
every key appearing in either. -/
def pyDictEq (d1 d2 : List (String × String)) : Bool :=
  (d1.map Prod.fst ++ d2.map Prod.fst).all
    (fun k => pyDictLookup d1 k == pyDictLookup d2 k)

/-! ### Certificate data

`ssock.getpeercert()` returns `issuer` and `subject` as sequences of RDNs
(relative distinguished names), each RDN a non-empty sequence of
(attribute-name, attribute-value) pairs; `notBefore`/`notAfter` are textual
dates and `serialNumber` may be absent.  Line 49 of the source,
`dict(x[0] for x in cert["issuer"])`, builds the issuer dict from the
first pair `x[0]` of each RDN `x`, and line 50 likewise for the subject. -/

structure PeerCert where
  issuer : List (List (String × String))
  subject : List (List (String × String))
  notBefore : String
  notAfter : String
  serialNumber : Option String

/-- The `x[0]` of each RDN `x`, in order (Python raises on an empty RDN;
`getpeercert` never produces one, and an empty RDN contributes nothing
here). -/
def rdnHeads (rdns : List (List (String × String))) : List (String × String) :=
  rdns.filterMap List.head?

/-- The `cert_info` record built by `get_cert_info` (source lines 52-59). -/
structure CertInfo where
  domain : String
  issuer : String
  valid_from : String
  valid_to : String
  serial_number : String
  is_self_signed : Bool
deriving DecidableEq

/-- Source lines 49-59: parse the peer certificate into a `cert_info`
record.  `issuer.get("organizationName", "Unknown")` is dict lookup with
default, `cert.get("serialNumber", "N/A")` likewise, and
`is_self_signed = (issuer == subject)` is Python dict equality. -/
def mk_cert_info (domain : String) (cert : PeerCert) : CertInfo :=
  let issuer := rdnHeads cert.issuer
  let subject := rdnHeads cert.subject
  { domain := domain
    issuer := (pyDictLookup issuer "organizationName").getD "Unknown"
    valid_from := cert.notBefore
    valid_to := cert.notAfter
    serial_number := cert.serialNumber.getD "N/A"
    is_self_signed := pyDictEq issuer subject }

/-! ### Scan cache and certificate retriever

`cert_cache` is a process-lifetime dict from domain to `cert_info`
(source line 36).  `get_cert_info` (lines 38-62) checks the cache, and on a
miss performs the TCP connect, TLS handshake and field extraction, caches
the result and returns it.  Any exception raised before the cache write on
line 61 — DNS/TCP failure, TLS failure, or a missing certificate field —
propagates to the caller; the server parameter carries that outcome. -/

inductive RetrieveError
  | connectionError
  | handshakeError
  | extractionError
deriving DecidableEq

abbrev Cache := List (String × CertInfo)

/-- `domain in cert_cache` / `cert_cache[domain]`: the value stored under
`domain`, if any (the most recent assignment wins). -/
def cacheLookup (c : Cache) (d : String) : Option CertInfo :=
  (c.find? (fun e => e.1 == d)).map (fun e => e.2)

/-- `cert_cache[domain] = info`. -/
def cacheInsert (c : Cache) (d : String) (v : CertInfo) : Cache :=
  (d, v) :: c

/-- Source lines 38-62.  `server` maps a domain to the outcome of the
connect/handshake/extraction block (lines 43-59); the function returns the
retrieved record (or the propagated error) together with the cache after
the call. -/
def get_cert_info (server : String → Except RetrieveError PeerCert)
    (cache : Cache) (domain : String) :
    Except RetrieveError CertInfo × Cache :=
  match cacheLookup cache domain with
  | some info => (.ok info, cache)
  | none =>
    match server domain with
    | .error e => (.error e, cache)
    | .ok cert =>
      let info := mk_cert_info domain cert
      (.ok info, cacheInsert cache domain info)

/-- A sequence of later retriever calls within the same process — each
request pairs the TLS server's behaviour at that moment with the domain
asked for — threaded through the cache. -/
def runRetrievals
    (reqs : List ((String → Except RetrieveError PeerCert) × String))
    (cache : Cache) : Cache :=
  reqs.foldl (fun c rq => (get_cert_info rq.1 c rq.2).2) cache

/-! ### Cipher strength analyzer

`analyze_cipher_strength` (lines 73-88) performs its own handshake; on
success `ssock.cipher()` yields a `(name, protocol, bits)` triple, and on
any exception the function prints a diagnostic and returns `None`.  The
handshake outcome is the parameter. -/

structure CipherTriple where
  name : String
  protocolVersion : String
  bits : Int

structure CipherAssessment where
  cipher_name : String
  protocol : String
  bits : Int
  is_weak : Bool
deriving DecidableEq

/-- Python's substring test `sub in s`. -/
def strContains (s sub : String) : Bool :=
  decide (sub.data <:+: s.data)

/-- Source lines 73-88. -/
def analyze_cipher_strength (handshake : Option CipherTriple) :
    Option CipherAssessment :=
  match handshake with
  | none => none
  | some c =>
    some { cipher_name := c.name
           protocol := c.protocolVersion
           bits := c.bits
           is_weak := strContains c.name "RC4" || strContains c.name "DES" ||
             decide (c.bits < 128) }

/-! ### Transparency log correlator

`check_cert_transparency` (lines 64-71) issues `requests.get(..., timeout=10)`
and returns `response.json() if response.status_code == 200 else []`; any
exception — the request itself or the JSON parse — is caught and yields `[]`.
An entry is opaque here (only the count is used downstream). -/

abbrev CtEntry := String

structure HttpResponse where
  status_code : Nat
  /-- Outcome of `response.json()`: the parsed entry list, or a parse
  failure that raises. -/
  jsonBody : Except String (List CtEntry)

/-- Source lines 64-71; `resp` is the outcome of the HTTP request
(`.error` = a network exception was raised). -/
def check_cert_transparency (resp : Except String HttpResponse) : List CtEntry :=
  match resp with
  | .error _ => []
  | .ok r =>
    if r.status_code == 200 then
      match r.jsonBody with
      | .ok entries => entries
      | .error _ => []
    else []

/-! ### Expiry calculator

`days_until_expiry` (lines 90-93) parses the textual end date and returns
`(expiry - datetime.utcnow()).days`.  A Python `timedelta` normalises a
(possibly negative) duration to `days`, `seconds`, `microseconds` with
`0 ≤ seconds < 86400`, so `.days` is the floor of the duration in days.
We model instants as integer seconds since an epoch (the parsed end date
and the fixed current instant); Python floor division by the positive
constant 86400 is `Int.ediv`, written `/` below. -/

structure Timedelta where
  days : Int
  seconds : Int

/-- `timedelta` normalisation of a duration of `t` seconds:
`divmod(t, 86400)`, Python divmod flooring. -/
def timedeltaOfSeconds (t : Int) : Timedelta :=
  { days := t / 86400, seconds := t % 86400 }

/-- Source lines 90-93 after the date parse: `(expiry - now).days`. -/
def days_until_expiry (expiry now : Int) : Int :=
  (timedeltaOfSeconds (expiry - now)).days

/-- Source line 160: `"✅" if days_left > 30 else "⚠️" if days_left > 0
else "❌"`. -/
def expiry_status (days_left : Int) : String :=
  if days_left > 30 then "✅" else if days_left > 0 then "⚠️" else "❌"

/-! ### Report assembler

The `Export JSON` branch of `main` (lines 186-201) retrieves the
certificate (uncaught failure aborts the branch with no report), then the
cipher assessment (`None` on failure) and the CT entries (`[]` on failure),
and writes a JSON object with exactly the keys `domain`, `certificate`,
`cipher`, `ct_log_entries`, `scan_time`. -/

structure ScanReport where
  domain : String
  certificate : CertInfo
  cipher : Option CipherAssessment
  ct_log_entries : Nat
  scan_time : String
deriving DecidableEq

/-- Source lines 186-197.  `scanTime` is `datetime.utcnow().isoformat()`,
supplied by the clock. -/
def export_json (server : String → Except RetrieveError PeerCert)
    (cipherHandshake : Option CipherTriple)
    (ctResponse : Except String HttpResponse)
    (scanTime : String) (cache : Cache) (domain : String) :
    Except RetrieveError ScanReport × Cache :=
  match get_cert_info server cache domain with
  | (.error e, c) => (.error e, c)
  | (.ok certInfo, c) =>
    (.ok { domain := domain
           certificate := certInfo
           cipher := analyze_cipher_strength cipherHandshake
           ct_log_entries := (check_cert_transparency ctResponse).length
           scan_time := scanTime }, c)

/-! ### Network-call deadlines

The deadline each network call site passes to the library.
`socket.create_connection((domain, 443))` on line 44 (retriever) and on
line 77 (cipher analyzer) passes no timeout, so the socket gets the global
default of "no timeout" and the connect and the TLS handshake on it may
block indefinitely; `requests.get(CRTSH_URL.format(domain), timeout=10)`
on line 67 passes a 10-second deadline. -/

inductive NetworkOp
  | retrieverConnect
  | cipherConnect
  | ctRequest
deriving DecidableEq

def opTimeout : NetworkOp → Option Nat
  | .retrieverConnect => none
  | .cipherConnect => none
  | .ctRequest => some 10

/-! ### Concrete certificates used in closed instances -/

/-- Issuer and subject share the organization name but differ in the
common name: a CA-issued certificate, not self-signed. -/
def certSameOrgOnly : PeerCert :=
  { issuer := [[("organizationName", "Acme")], [("commonName", "Acme Root CA")]]
    subject := [[("organizationName", "Acme")], [("commonName", "www.acme.com")]]
    notBefore := "Jan  1 00:00:00 2024 GMT"
    notAfter := "Jan  1 00:00:00 2025 GMT"
    serialNumber := some "01" }

/-- Issuer and subject carry the same attributes in different RDN order:
self-signed. -/
def certPermutedSelf : PeerCert :=
  { issuer := [[("organizationName", "Acme")], [("commonName", "acme.com")]]
    subject := [[("commonName", "acme.com")], [("organizationName", "Acme")]]
    notBefore := "Jan  1 00:00:00 2024 GMT"
    notAfter := "Jan  1 00:00:00 2025 GMT"
    serialNumber := none }

/-! ## Helper lemmas -/

theorem pyDictLookup_eq_none (pairs : List (String × String)) (k : String)
    (h : ∀ p ∈ pairs, p.1 ≠ k) : pyDictLookup pairs k = none := by
  unfold pyDictLookup
  rw [List.find?_eq_none.mpr]
  · rfl
  · intro p hp
    simpa using h p (List.mem_reverse.mp hp)

/-- Boolean dict equality coincides with pointwise equality of the two
key-to-value mappings (on all keys, in an order-independent way). -/
theorem pyDictEq_iff (d1 d2 : List (String × String)) :
    pyDictEq d1 d2 = true ↔ ∀ k, pyDictLookup d1 k = pyDictLookup d2 k := by
  unfold pyDictEq
  rw [List.all_eq_true]
  constructor
  · intro h k
    by_cases hk : k ∈ d1.map Prod.fst ++ d2.map Prod.fst
    · exact eq_of_beq (h k hk)
    · rw [List.mem_append] at hk
      push_neg at hk
      obtain ⟨hk1, hk2⟩ := hk
      rw [pyDictLookup_eq_none d1 k, pyDictLookup_eq_none d2 k]
      · intro p hp hpk
        exact hk2 (List.mem_map.mpr ⟨p, hp, hpk⟩)
      · intro p hp hpk
        exact hk1 (List.mem_map.mpr ⟨p, hp, hpk⟩)
  · intro h k _
    rw [h k]
    exact beq_self_eq_true _

/-- A retriever call for any domain never disturbs an existing cache
entry. -/
theorem cacheLookup_get_cert_info
    (s : String → Except RetrieveError PeerCert) (c : Cache)
    (d d2 : String) (v : CertInfo) (h : cacheLookup c d = some v) :
    cacheLookup (get_cert_info s c d2).2 d = some v := by
  unfold get_cert_info
  cases hl : cacheLookup c d2 with
  | some info => simpa using h
  | none =>
    cases hs : s d2 with
    | error e => simpa using h
    | ok cert =>
      by_cases hd : d2 = d
      · subst hd
        rw [h] at hl
        exact Option.noConfusion hl
      · simp only [cacheLookup, cacheInsert, List.find?]
        have hbeq : (d2 == d) = false := beq_eq_false_iff_ne.mpr hd
        rw [hbeq]
        exact h

/-- A whole sequence of later retriever calls never disturbs an existing
cache entry. -/
theorem cacheLookup_runRetrievals
    (reqs : List ((String → Except RetrieveError PeerCert) × String))
    (c : Cache) (d : String) (v : CertInfo)
    (h : cacheLookup c d = some v) :
    cacheLookup (runRetrievals reqs c) d = some v := by
  induction reqs generalizing c with
  | nil => simpa [runRetrievals] using h
  | cons rq rest ih =>
    simp only [runRetrievals, List.foldl_cons]
    exact ih _ (cacheLookup_get_cert_info rq.1 c d rq.2 v h)

/-! ## Claims -/

/-- C1: a retrieved record's `is_self_signed` field is true iff the
extracted issuer attribute mapping (attribute name to value, from the
leading pair of each RDN, as lines 49-50 build it) pointwise equals the
extracted subject attribute mapping on every attribute name — full,
order-independent mapping equality, not merely equality of organization
names; concretely, equal organization names with differing common names
give `false`, and the same attributes in permuted RDN order give `true`. -/
theorem self_signed_iff_attribute_maps_equal :
    (∀ (d : String) (cert : PeerCert),
      ((mk_cert_info d cert).is_self_signed = true ↔
        ∀ k, pyDictLookup (rdnHeads cert.issuer) k =
          pyDictLookup (rdnHeads cert.subject) k)) ∧
    (mk_cert_info "acme.com" certSameOrgOnly).is_self_signed = false ∧
    (mk_cert_info "acme.com" certPermutedSelf).is_self_signed = true := by
  refine ⟨?_, by decide, by decide⟩
  intro d cert
  exact pyDictEq_iff (rdnHeads cert.issuer) (rdnHeads cert.subject)

/-- C2: an assessment's `is_weak` is true iff the cipher name contains
`"RC4"` or `"DES"` as a substring or the bit strength is below 128; in
particular an RC4 cipher is weak at every bit count, a 256-bit cipher with
no banned substring is not weak, and a 112-bit cipher with no banned
substring is weak. -/
theorem is_weak_iff_banned_substring_or_low_bits :
    (∀ (name pv : String) (bits : Int),
      ((analyze_cipher_strength (some ⟨name, pv, bits⟩)).map
          (fun a => a.is_weak) = some true ↔
        ("RC4".data <:+: name.data ∨ "DES".data <:+: name.data ∨ bits < 128))) ∧
    (∀ bits : Int,
      (analyze_cipher_strength (some ⟨"TLS-RC4-SHA", "TLSv1.2", bits⟩)).map
        (fun a => a.is_weak) = some true) ∧
    ((analyze_cipher_strength
        (some ⟨"ECDHE-RSA-AES256-GCM-SHA384", "TLSv1.2", 256⟩)).map
      (fun a => a.is_weak) = some false) ∧
    ((analyze_cipher_strength
        (some ⟨"ECDHE-RSA-CHACHA20-POLY1305", "TLSv1.2", 112⟩)).map
      (fun a => a.is_weak) = some true) := by
  refine ⟨?_, ?_, by decide, by decide⟩
  · intro name pv bits
    simp [analyze_cipher_strength, strContains, or_assoc]
  · intro bits
    have h : strContains "TLS-RC4-SHA" "RC4" = true := by decide
    simp [analyze_cipher_strength, h]

/-- C3: for a fixed current instant, the day count returned for an end
date is the floor of the duration from now to the end date in days
(partial days round down): it is the unique integer `q` with
`q * 86400 ≤ duration < (q + 1) * 86400`; an expiry 12 hours ahead gives
0, 12 hours past gives -1, 30 days and 1 hour ahead gives 30, and 30 days
minus 1 hour ahead gives 29.  The result is a function of the two
instants alone, hence deterministic for a fixed now. -/
theorem days_until_expiry_is_floor :
    ∀ now expiry : Int,
      days_until_expiry expiry now * 86400 ≤ expiry - now ∧
      expiry - now < (days_until_expiry expiry now + 1) * 86400 ∧
      days_until_expiry (now + 43200) now = 0 ∧
      days_until_expiry (now - 43200) now = -1 ∧
      days_until_expiry (now + (30 * 86400 + 3600)) now = 30 ∧
      days_until_expiry (now + (30 * 86400 - 3600)) now = 29 := by
  intro now expiry
  simp only [days_until_expiry, timedeltaOfSeconds]
  omega

/-- C4: a successful retrieval writes its record into the cache; a second
sequential call for the same domain — even against a server whose
certificate has changed — returns the identical record and leaves the
cache untouched; an existing cache entry is never overwritten (the call
returns it and changes nothing); and after any sequence of later
retriever calls within the process, a call for the same domain still
returns the first-ever record. -/
theorem retrieve_idempotent_per_process :
    ∀ (server1 server2 : String → Except RetrieveError PeerCert)
      (cache : Cache) (d : String) (r : CertInfo) (c1 : Cache),
      get_cert_info server1 cache d = (.ok r, c1) →
      cacheLookup c1 d = some r ∧
      get_cert_info server2 c1 d = (.ok r, c1) ∧
      (∀ v, cacheLookup cache d = some v → r = v ∧ c1 = cache) ∧
      (∀ reqs server3,
        (get_cert_info server3 (runRetrievals reqs c1) d).1 = .ok r) := by
  intro s1 s2 cache d r c1 h
  have hc1 : cacheLookup c1 d = some r := by
    unfold get_cert_info at h
    cases hl : cacheLookup cache d with
    | some info =>
      rw [hl] at h
      simp only [Prod.mk.injEq, Except.ok.injEq] at h
      obtain ⟨h1, h2⟩ := h
      rw [← h2, hl, h1]
    | none =>
      rw [hl] at h
      cases hs : s1 d with
      | error e =>
        rw [hs] at h
        simp at h
      | ok cert =>
        rw [hs] at h
        simp only [Prod.mk.injEq, Except.ok.injEq] at h
        obtain ⟨h1, h2⟩ := h
        rw [← h2, ← h1]
        simp [cacheLookup, cacheInsert, List.find?]
  refine ⟨hc1, ?_, ?_, ?_⟩
  · unfold get_cert_info
    rw [hc1]
  · intro v hv
    unfold get_cert_info at h
    rw [hv] at h
    simp only [Prod.mk.injEq, Except.ok.injEq] at h
    exact ⟨h.1.symm, h.2.symm⟩
  · intro reqs s3
    have hpres := cacheLookup_runRetrievals reqs c1 d r hc1
    unfold get_cert_info
    rw [hpres]

theorem retrieve_idempotent_per_process_witness :
    get_cert_info (fun _ => .ok certSameOrgOnly)
        (cacheInsert [] "acme.com" (mk_cert_info "acme.com" certPermutedSelf))
        "acme.com"
      = (.ok (mk_cert_info "acme.com" certPermutedSelf),
         cacheInsert [] "acme.com" (mk_cert_info "acme.com" certPermutedSelf)) :=
  (retrieve_idempotent_per_process (fun _ => .ok certPermutedSelf)
    (fun _ => .ok certSameOrgOnly) [] "acme.com"
    (mk_cert_info "acme.com" certPermutedSelf)
    (cacheInsert [] "acme.com" (mk_cert_info "acme.com" certPermutedSelf))
    rfl).2.1

/-- C10: when the retrieval fails (connection, handshake or extraction —
any error raised before the cache write on line 61), the error propagates
and the cache is exactly what it was: no entry is inserted for the
domain, so a subsequent call for the same domain goes back to the server
and, if the server now answers, builds a fresh record. -/
theorem failed_retrieve_leaves_cache_unchanged :
    ∀ (server : String → Except RetrieveError PeerCert) (cache : Cache)
      (d : String) (e : RetrieveError),
      cacheLookup cache d = none → server d = .error e →
      get_cert_info server cache d = (.error e, cache) ∧
      (∀ (server2 : String → Except RetrieveError PeerCert) (cert : PeerCert),
        server2 d = .ok cert →
        get_cert_info server2 cache d =
          (.ok (mk_cert_info d cert),
           cacheInsert cache d (mk_cert_info d cert))) := by
  intro server cache d e hmiss hfail
  constructor
  · unfold get_cert_info
    rw [hmiss, hfail]
  · intro s2 cert h2
    unfold get_cert_info
    rw [hmiss, h2]

theorem failed_retrieve_leaves_cache_unchanged_witness :
    get_cert_info (fun _ => .error .connectionError) [] "acme.com"
      = (.error .connectionError, []) :=
  (failed_retrieve_leaves_cache_unchanged (fun _ => .error .connectionError)
    [] "acme.com" .connectionError rfl rfl).1

/-- C6: the export fails outright, producing no report, exactly when the
certificate retrieval fails (with that same error); when the retrieval
succeeds a report is always produced — even when the cipher analyzer
yields nothing or the CT correlator yields an empty list — and it is the
record with exactly the fields `domain`, `certificate`, `cipher`
(possibly none), `ct_log_entries` (the count of CT entries, a natural
number), and `scan_time` (the supplied UTC timestamp string). -/
theorem scan_report_shape :
    ∀ (server : String → Except RetrieveError PeerCert)
      (ch : Option CipherTriple) (ctR : Except String HttpResponse)
      (t : String) (cache : Cache) (d : String),
      (∀ e, (get_cert_info server cache d).1 = .error e →
        (export_json server ch ctR t cache d).1 = .error e) ∧
      (∀ ci, (get_cert_info server cache d).1 = .ok ci →
        (export_json server ch ctR t cache d).1 = .ok
          { domain := d
            certificate := ci
            cipher := analyze_cipher_strength ch
            ct_log_entries := (check_cert_transparency ctR).length
            scan_time := t }) := by
  intro server ch ctR t cache d
  constructor
  · intro e he
    unfold export_json
    rcases hg : get_cert_info server cache d with ⟨res, c⟩
    rw [hg] at he
    cases res with
    | error e2 =>
      simp only at he
      rw [he]
    | ok ci => simp at he
  · intro ci hok
    unfold export_json
    rcases hg : get_cert_info server cache d with ⟨res, c⟩
    rw [hg] at hok
    cases res with
    | error e2 => simp at hok
    | ok ci2 =>
      simp only [Except.ok.injEq] at hok
      rw [hok]

theorem scan_report_shape_witness :
    ((export_json (fun _ => .error .handshakeError) none
        (.error "network unreachable") "2026-01-01T00:00:00" []
        "acme.com").1 = .error .handshakeError) ∧
    ((export_json (fun _ => .ok certSameOrgOnly) none
        (.error "network unreachable") "2026-01-01T00:00:00" []
        "acme.com").1 = .ok
      { domain := "acme.com"
        certificate := mk_cert_info "acme.com" certSameOrgOnly
        cipher := none
        ct_log_entries := 0
        scan_time := "2026-01-01T00:00:00" }) :=
  ⟨(scan_report_shape (fun _ => .error .handshakeError) none
      (.error "network unreachable") "2026-01-01T00:00:00" []
      "acme.com").1 .handshakeError rfl,
   (scan_report_shape (fun _ => .ok certSameOrgOnly) none
      (.error "network unreachable") "2026-01-01T00:00:00" []
      "acme.com").2 (mk_cert_info "acme.com" certSameOrgOnly) rfl⟩

/-- C7: the correlator is a total function of the HTTP outcome — it never
propagates a failure: an HTTP 200 response whose body parses yields the
parsed entry list, any non-200 status yields the empty list, a body that
fails to parse yields the empty list, and a network exception yields the
empty list. -/
theorem correlate_never_raises :
    ∀ resp : Except String HttpResponse,
      (∀ r entries, resp = .ok r → r.status_code = 200 →
        r.jsonBody = .ok entries → check_cert_transparency resp = entries) ∧
      (∀ r, resp = .ok r → r.status_code ≠ 200 →
        check_cert_transparency resp = []) ∧
      (∀ r e, resp = .ok r → r.jsonBody = .error e →
        check_cert_transparency resp = []) ∧
      (∀ e, resp = .error e → check_cert_transparency resp = []) := by
  intro resp
  refine ⟨?_, ?_, ?_, ?_⟩
  · intro r entries hr h200 hbody
    subst hr
    simp [check_cert_transparency, h200, hbody]
  · intro r hr hne
    subst hr
    simp [check_cert_transparency, hne]
  · intro r e hr hbody
    subst hr
    by_cases h200 : r.status_code = 200 <;>
      simp [check_cert_transparency, h200, hbody]
  · intro e hr
    subst hr
    rfl

theorem correlate_never_raises_witness :
    check_cert_transparency
        (.ok { status_code := 500, jsonBody := .ok ["entry"] }) = [] :=
  (correlate_never_raises
    (.ok { status_code := 500, jsonBody := .ok ["entry"] })).2.1
    { status_code := 500, jsonBody := .ok ["entry"] } rfl (by decide)

/-- C8: the cipher analyzer yields `none` — not an error — when its
handshake (or any step of the cipher inspection, all inside the same
`try`) fails, and a `none` assessment does not fail the containing export:
whenever the certificate retrieval succeeds, the report is still produced,
with its `cipher` field absent. -/
theorem analyze_null_on_failure_is_not_fatal :
    analyze_cipher_strength none = none ∧
    (∀ (server : String → Except RetrieveError PeerCert)
       (ctR : Except String HttpResponse) (t : String) (cache : Cache)
       (d : String) (ci : CertInfo),
      (get_cert_info server cache d).1 = .ok ci →
      ∃ rep : ScanReport,
        (export_json server none ctR t cache d).1 = .ok rep ∧
          rep.cipher = none) := by
  constructor
  · rfl
  · intro server ctR t cache d ci hok
    unfold export_json
    rcases hg : get_cert_info server cache d with ⟨res, c⟩
    rw [hg] at hok
    cases res with
    | error e => simp at hok
    | ok ci2 => exact ⟨_, rfl, rfl⟩

theorem analyze_null_on_failure_is_not_fatal_witness :
    ∃ rep : ScanReport,
      (export_json (fun _ => .ok certSameOrgOnly) none
          (.error "network unreachable") "2026-01-01T00:00:00" []
          "acme.com").1 = .ok rep ∧ rep.cipher = none :=
  analyze_null_on_failure_is_not_fatal.2 (fun _ => .ok certSameOrgOnly)
    (.error "network unreachable") "2026-01-01T00:00:00" [] "acme.com"
    (mk_cert_info "acme.com" certSameOrgOnly) rfl

/-- C9: the expiry status shown by the report layer classifies every
integer day count as healthy exactly above 30, as warning exactly between
1 and 30 inclusive, and as expired/critical exactly at zero and below. -/
theorem expiry_status_classification :
    ∀ d : Int,
      (expiry_status d = "✅" ↔ 30 < d) ∧
      (expiry_status d = "⚠️" ↔ 1 ≤ d ∧ d ≤ 30) ∧
      (expiry_status d = "❌" ↔ d ≤ 0) := by
  intro d
  unfold expiry_status
  split_ifs with ha hb <;> refine ⟨?_, ?_, ?_⟩ <;> simp <;> omega

/-- C5, counterexample to the claim as stated: it is not the case that
every network operation of the engine is bounded by a deadline — the
retriever's connect/handshake call site passes no timeout at all. -/
theorem not_every_network_op_has_deadline :
    ¬ ∀ op : NetworkOp, (opTimeout op).isSome = true := by
  intro h
  have hr := h .retrieverConnect
  simp [opTimeout] at hr

/-- C5, amended: only the CT aggregator HTTP request is bounded by a
deadline, fixed at 10 seconds (hard-coded, not configurable); the
retriever's and the cipher analyzer's TCP connect and TLS handshake pass
no timeout and may block indefinitely. -/
theorem ct_request_is_the_only_deadline :
    opTimeout .ctRequest = some 10 ∧ opTimeout .retrieverConnect = none ∧
      opTimeout .cipherConnect = none :=
  ⟨rfl, rfl, rfl⟩

end CertInspector
